import Mathlib

/-!
Shallow embedding of the volta agent coordination layer.

Embedded source files:
- src/mcp-server/src/index.ts : agent registry (registerAgent, updateAgentStatus,
  startHeartbeatMonitoring sweep, handleListAgents, handleRequestCapability).
- src/agents/src/index.ts : agent runtime (processTask, setupSubscriptions task loop).
- src/unnamed/part_000 (utils.ts) : isValidTask, calculateBackoffDelay.
- src/isolation.md (mcp-client.ts) : MCPCommunicationClient.requestCapability, close.

JavaScript runtime values are modelled by the inductive JSVal; timestamps are
Nat milliseconds; the in-memory JS Map of the registry is an insertion-ordered
association list with Map.set / Map.get semantics.
-/

/-- Model of a JavaScript runtime value, as far as the embedded code inspects it. -/
inductive JSVal where
  | undef
  | null
  | bool (b : Bool)
  | num (n : Int)
  | str (s : String)
  | obj (fields : List (String × JSVal))
  | arr (size : Nat)

/-- JavaScript typeof operator on the modelled values. -/
def jsTypeof (v : JSVal) : String :=
  match v with
  | .undef => "undefined"
  | .null => "object"
  | .bool _ => "boolean"
  | .num _ => "number"
  | .str _ => "string"
  | .obj _ => "object"
  | .arr _ => "object"

/-- JavaScript truthiness of the modelled values. -/
def jsTruthy (v : JSVal) : Bool :=
  match v with
  | .undef => false
  | .null => false
  | .bool b => b
  | .num n => n != 0
  | .str s => s != ""
  | .obj _ => true
  | .arr _ => true

/-- Property access obj.key: first binding wins; absent keys read as undefined.
The embedded code only dereferences values it has checked to be truthy objects,
so the TypeError cases of JavaScript cannot arise here. -/
def jsGetField (v : JSVal) (key : String) : JSVal :=
  match v with
  | .obj fields => go fields
  | _ => .undef
where
  go : List (String × JSVal) → JSVal
    | [] => .undef
    | (k, w) :: rest => if k = key then w else go rest

/-- True when the value is the undefined value. -/
def jsIsUndef (v : JSVal) : Bool :=
  match v with
  | .undef => true
  | _ => false

/-- True when the value is the string s (JavaScript strict equality with a string literal). -/
def jsEqStr (v : JSVal) (s : String) : Bool :=
  match v with
  | .str t => t = s
  | _ => false

/-- The string content of a value known to be a string (used only after a typeof check). -/
def jsStr (v : JSVal) : String :=
  match v with
  | .str s => s
  | _ => ""

/-- From src/unnamed/part_000 (utils.ts) isValidTask: the object must be truthy,
of typeof object, with string id, string type, and data not strictly undefined. -/
def isValidTask (o : JSVal) : Bool :=
  jsTruthy o &&
  jsTypeof o == "object" &&
  jsTypeof (jsGetField o "id") == "string" &&
  jsTypeof (jsGetField o "type") == "string" &&
  !(jsIsUndef (jsGetField o "data"))

/-- From src/unnamed/part_000 (utils.ts) calculateBackoffDelay:
Math.min(baseDelay * Math.pow(2, retryCount), maxDelay). The TypeScript default
parameters are baseDelay = 1000 and maxDelay = 30000. -/
def calculateBackoffDelay (retryCount baseDelay maxDelay : Nat) : Nat :=
  min (baseDelay * 2 ^ retryCount) maxDelay

/-- The TypeScript default baseDelay argument of calculateBackoffDelay. -/
def defaultBaseDelay : Nat := 1000

/-- The TypeScript default maxDelay argument of calculateBackoffDelay. -/
def defaultMaxDelay : Nat := 30000

/-- The formula named by the spec: delay(attempt) = min(base * 2 ^ attempt, cap). -/
def backoffDelaySpec (attempt base cap : Nat) : Nat :=
  min (base * 2 ^ attempt) cap

/-- JavaScript Map.get: first (and by the Map invariant only) binding of the key. -/
def jsMapGet {α : Type} (m : List (String × α)) (k : String) : Option α :=
  match m with
  | [] => none
  | (k', v) :: rest => if k' = k then some v else jsMapGet rest k

/-- JavaScript Map.set: replace the binding in place when the key is present,
append a new binding otherwise (insertion order is preserved). -/
def jsMapSet {α : Type} (m : List (String × α)) (k : String) (v : α) : List (String × α) :=
  match m with
  | [] => [(k, v)]
  | (k', v') :: rest => if k' = k then (k, v) :: rest else (k', v') :: jsMapSet rest k v

theorem jsMapGet_jsMapSet_self {α : Type} (m : List (String × α)) (k : String) (v : α) :
    jsMapGet (jsMapSet m k v) k = some v := by
  induction m with
  | nil => simp [jsMapGet, jsMapSet]
  | cons hd tl ih =>
    obtain ⟨k', v'⟩ := hd
    by_cases h : k' = k
    · simp [jsMapGet, jsMapSet, h]
    · simp [jsMapGet, jsMapSet, h, ih]

theorem jsMapGet_jsMapSet_ne {α : Type} (m : List (String × α)) (k k' : String) (v : α)
    (h : k' ≠ k) : jsMapGet (jsMapSet m k v) k' = jsMapGet m k' := by
  have hne : k ≠ k' := Ne.symm h
  induction m with
  | nil => simp [jsMapGet, jsMapSet, hne]
  | cons hd tl ih =>
    obtain ⟨k₀, v₀⟩ := hd
    by_cases h₀ : k₀ = k
    · subst h₀
      simp [jsMapGet, jsMapSet, hne]
    · simp only [jsMapSet, if_neg h₀]
      by_cases h₁ : k₀ = k'
      · simp [jsMapGet, h₁]
      · simp [jsMapGet, h₁, ih]

theorem length_jsMapSet_of_mem {α : Type} (m : List (String × α)) (k : String) (v : α)
    (h : jsMapGet m k ≠ none) : (jsMapSet m k v).length = m.length := by
  induction m with
  | nil => simp [jsMapGet] at h
  | cons hd tl ih =>
    obtain ⟨k', v'⟩ := hd
    by_cases h₀ : k' = k
    · simp [jsMapSet, h₀]
    · simp only [jsMapGet, if_neg h₀] at h
      simp [jsMapSet, h₀, ih h]

theorem length_jsMapSet_of_not_mem {α : Type} (m : List (String × α)) (k : String) (v : α)
    (h : jsMapGet m k = none) : (jsMapSet m k v).length = m.length + 1 := by
  induction m with
  | nil => simp [jsMapSet]
  | cons hd tl ih =>
    obtain ⟨k', v'⟩ := hd
    by_cases h₀ : k' = k
    · simp [jsMapGet, h₀] at h
    · simp only [jsMapGet, if_neg h₀] at h
      simp [jsMapSet, h₀, ih h]

theorem keys_jsMapSet_of_mem {α : Type} (m : List (String × α)) (k : String) (v : α)
    (h : jsMapGet m k ≠ none) :
    (jsMapSet m k v).map Prod.fst = m.map Prod.fst := by
  induction m with
  | nil => simp [jsMapGet] at h
  | cons hd tl ih =>
    obtain ⟨k', v'⟩ := hd
    by_cases h₀ : k' = k
    · simp [jsMapSet, h₀]
    · simp only [jsMapGet, if_neg h₀] at h
      simp [jsMapSet, h₀, ih h]

theorem keys_jsMapSet_of_not_mem {α : Type} (m : List (String × α)) (k : String) (v : α)
    (h : jsMapGet m k = none) :
    (jsMapSet m k v).map Prod.fst = m.map Prod.fst ++ [k] := by
  induction m with
  | nil => simp [jsMapSet]
  | cons hd tl ih =>
    obtain ⟨k', v'⟩ := hd
    by_cases h₀ : k' = k
    · simp [jsMapGet, h₀] at h
    · simp only [jsMapGet, if_neg h₀] at h
      simp [jsMapSet, h₀, ih h]

theorem jsMapGet_eq_none_iff {α : Type} (m : List (String × α)) (k : String) :
    jsMapGet m k = none ↔ k ∉ m.map Prod.fst := by
  induction m with
  | nil => simp [jsMapGet]
  | cons hd tl ih =>
    obtain ⟨k', v'⟩ := hd
    by_cases h₀ : k' = k
    · simp [jsMapGet, h₀]
    · have h₁ : k ≠ k' := fun e => h₀ e.symm
      simp [jsMapGet, h₀, ih, h₁]

theorem nodup_keys_jsMapSet {α : Type} (m : List (String × α)) (k : String) (v : α)
    (h : (m.map Prod.fst).Nodup) : ((jsMapSet m k v).map Prod.fst).Nodup := by
  by_cases hk : jsMapGet m k = none
  · rw [keys_jsMapSet_of_not_mem m k v hk]
    have hnot : k ∉ m.map Prod.fst := (jsMapGet_eq_none_iff m k).mp hk
    simp [List.nodup_append, h, hnot]
  · rw [keys_jsMapSet_of_mem m k v hk]
    exact h

/-! ## Registry (src/mcp-server/src/index.ts) -/

/-- A record of the agent registry (interface Agent in src/mcp-server/src/index.ts).
lastSeen is a millisecond timestamp; status holds the JavaScript string written
into the record ("online" or "offline" from the in-repo publishers). -/
structure Agent where
  id : String
  name : String
  lastSeen : Nat
  status : String
  capabilities : List String
deriving DecidableEq, Repr

/-- The parsed payload of an agent.announce message, as read by registerAgent.
name is absent or empty when the JavaScript value was falsy there. -/
structure AnnounceData where
  id : String
  name : Option String
  capabilities : Option (List String)
deriving DecidableEq, Repr

/-- The agents field of AgentCommunicationServer: a JavaScript Map keyed by agent id. -/
abbrev Registry := List (String × Agent)

/-- registerAgent (src/mcp-server/src/index.ts lines 190 to 201): build the record,
defaulting a falsy name to agent-id and absent capabilities to the empty list,
then Map.set it under its id. -/
def registerAgent (now : Nat) (d : AnnounceData) (st : Registry) : Registry :=
  let agent : Agent :=
    { id := d.id
      name := match d.name with
              | some n => if n = "" then "agent-" ++ d.id else n
              | none => "agent-" ++ d.id
      lastSeen := now
      status := "online"
      capabilities := d.capabilities.getD [] }
  jsMapSet st agent.id agent

/-- updateAgentStatus (src/mcp-server/src/index.ts lines 203 to 210): when the id is
registered, overwrite status with the given value and refresh lastSeen; when the id
is unknown, do nothing. -/
def updateAgentStatus (now : Nat) (agentId : String) (status : String) (st : Registry) :
    Registry :=
  match jsMapGet st agentId with
  | none => st
  | some a => jsMapSet st agentId { a with status := status, lastSeen := now }

/-- The hardcoded staleness timeout of startHeartbeatMonitoring: 90000 ms. -/
def stalenessTimeoutMs : Nat := 90000

/-- The hardcoded sweep interval of startHeartbeatMonitoring: 60000 ms. -/
def sweepIntervalMs : Nat := 60000

/-- One firing of the startHeartbeatMonitoring interval (src/mcp-server/src/index.ts
lines 212 to 226): every agent whose lastSeen is older than the staleness timeout
and whose status is "online" is passed to updateAgentStatus with "offline". -/
def heartbeatSweep (now : Nat) (st : Registry) : Registry :=
  st.foldl
    (fun acc e =>
      if now - e.2.lastSeen > stalenessTimeoutMs && e.2.status == "online" then
        updateAgentStatus now e.1 "offline" acc
      else acc)
    st

/-- handleListAgents (src/mcp-server/src/index.ts lines 420 to 445): all registry
values, filtered by status unless the filter is "all". -/
def handleListAgents (statusFilter : String) (st : Registry) : List Agent :=
  let agentList := st.map Prod.snd
  if statusFilter != "all" then agentList.filter (fun a => a.status == statusFilter)
  else agentList

/-- The registry lookup behind get_agent_info and mcp.get_agent_info: null when
the id is unknown. -/
def handleGetAgentInfo (agentId : String) (st : Registry) : Option Agent :=
  jsMapGet st agentId

/-- The events that reach the registry: an agent.announce message, a message on
agent.*.status carrying agentId and status, one firing of the staleness sweep,
and the two read-only queries. -/
inductive RegistryEvent where
  | announce (d : AnnounceData)
  | statusMessage (agentId : String) (status : String)
  | sweep
  | listQuery (statusFilter : String)
  | getQuery (agentId : String)
deriving DecidableEq, Repr

/-- Dispatch of one registry event, following the subscription handlers of
subscribeToAgentDiscovery and the startHeartbeatMonitoring timer; the queries
read the map without writing it. -/
def registryStep (now : Nat) (e : RegistryEvent) (st : Registry) : Registry :=
  match e with
  | .announce d => registerAgent now d st
  | .statusMessage agentId status => updateAgentStatus now agentId status st
  | .sweep => heartbeatSweep now st
  | .listQuery _ => st
  | .getQuery _ => st

/-! ## Agent runtime (src/agents/src/index.ts) -/

/-- interface TaskResult (src/agents/src/types.ts): status holds the JavaScript
string written by processTask ("completed" or "failed"); error is present only
on the failed path. -/
structure TaskResult where
  agentId : String
  taskId : String
  status : String
  timestamp : String
  result : String
  error : Option String
  processingTime : Nat
deriving DecidableEq, Repr

/-- The counters of ProcessingStats (src/agents/src/types.ts) updated by
processTask; the floating point rolling average is left out of the model. -/
structure ProcessingStats where
  tasksProcessed : Nat
  tasksSucceeded : Nat
  tasksFailed : Nat
deriving DecidableEq, Repr

/-- The initial statistics of the agent runtime. -/
def initialStats : ProcessingStats :=
  { tasksProcessed := 0, tasksSucceeded := 0, tasksFailed := 0 }

/-- The claudeService branch guard in processTask:
task.type === claude, or task.type === ai, or task.data is a truthy object whose
useClaude field is truthy. -/
def wantsClaude (task : JSVal) : Bool :=
  jsEqStr (jsGetField task "type") "claude" ||
  jsEqStr (jsGetField task "type") "ai" ||
  (jsTruthy (jsGetField task "data") &&
   jsTypeof (jsGetField task "data") == "object" &&
   jsTruthy (jsGetField (jsGetField task "data") "useClaude"))

/-- processTask (src/agents/src/index.ts lines 48 to 122). The effectful steps are
passed in as outcomes: parseResult is the JSON.parse of the message bytes,
claudeOutcome the Claude call (its failure is caught inside the try and falls
back to the plain text), writeOutcome the write of the result file. Any throw
inside the try lands in the catch, which returns a failed TaskResult with
taskId unknown and the error message, never rethrowing. -/
def processTask (agentId : String) (claudeAvailable : Bool)
    (parseResult : Except String JSVal) (claudeOutcome : Except String String)
    (writeOutcome : Except String Unit) (nowIso : String) (elapsedMs : Nat)
    (stats : ProcessingStats) : TaskResult × ProcessingStats :=
  let failed : String → TaskResult × ProcessingStats := fun emsg =>
    ({ agentId := agentId
       taskId := "unknown"
       status := "failed"
       timestamp := nowIso
       result := "Task processing failed"
       error := some emsg
       processingTime := elapsedMs },
     { stats with
       tasksProcessed := stats.tasksProcessed + 1
       tasksFailed := stats.tasksFailed + 1 })
  match parseResult with
  | .error e => failed e
  | .ok taskData =>
    if !isValidTask taskData then failed "Invalid task structure"
    else
      let taskId := jsStr (jsGetField taskData "id")
      let base := "Task " ++ taskId ++ " processed by " ++ agentId
      let taskText :=
        if claudeAvailable && wantsClaude taskData then
          match claudeOutcome with
          | .ok t => t
          | .error _ => "Fallback processing: " ++ base
        else base
      match writeOutcome with
      | .error e => failed e
      | .ok _ =>
        ({ agentId := agentId
           taskId := taskId
           status := "completed"
           timestamp := nowIso
           result := taskText
           error := none
           processingTime := elapsedMs },
         { stats with
           tasksProcessed := stats.tasksProcessed + 1
           tasksSucceeded := stats.tasksSucceeded + 1 })

/-- One iteration of the task subscription loop in setupSubscriptions
(src/agents/src/index.ts lines 282 to 294): processTask is awaited and its
result published to task.result; since processTask never throws, exactly one
message is published per consumed task message, and the message is not
re-queued. -/
def taskLoopStep (agentId : String) (claudeAvailable : Bool)
    (parseResult : Except String JSVal) (claudeOutcome : Except String String)
    (writeOutcome : Except String Unit) (nowIso : String) (elapsedMs : Nat)
    (stats : ProcessingStats) : List TaskResult × ProcessingStats :=
  let r := processTask agentId claudeAvailable parseResult claudeOutcome writeOutcome
      nowIso elapsedMs stats
  ([r.1], r.2)

/-! ## Capability broker (src/mcp-server/src/index.ts, src/isolation.md) -/

/-- The outcome of the bus request primitive as seen by the embedded handlers:
either a reply payload, or a thrown error carrying a code and a message. -/
inductive NatsOutcome where
  | reply (payload : String)
  | err (code : String) (message : String)
deriving DecidableEq, Repr

/-- What the caller of a capability request observes: the reply content, the
soft unavailable text, or a re-raised error. -/
inductive CapOutcome where
  | content (text : String)
  | unavailable (text : String)
  | raised (code : String) (message : String)
deriving DecidableEq, Repr

/-- Modelled from the spec: the bus request primitive is the external NATS client
library, absent from src/. Per the spec it fails with a TimeoutError when no
reply arrives within timeoutMs; that error is distinct from the no-responders
error of code 503, which the repository client code tests separately from
messages containing the word timeout. -/
def timeoutError : NatsOutcome := .err "TIMEOUT" "TIMEOUT"

/-- Modelled from the spec: the immediate no-responders failure of the external
bus when no subscriber exists on the request topic; the repository code
recognises it by code 503. -/
def noRespondersError : NatsOutcome := .err "503" "no responders available"

/-- handleRequestCapability (src/mcp-server/src/index.ts lines 525 to 571): a reply
is returned as content; a thrown error of code 503 becomes the soft text
No agent available with capability; every other error is rethrown. -/
def handleRequestCapability (capability : String) (outcome : NatsOutcome) : CapOutcome :=
  match outcome with
  | .reply p => .content p
  | .err code msg =>
    if code = "503" then .unavailable ("No agent available with capability: " ++ capability)
    else .raised code msg

/-- The includes check of JavaScript String.prototype.includes: the needle occurs
as a contiguous substring at some position (case sensitive). -/
def strIncludes (s sub : String) : Bool :=
  (List.range (s.length + 1)).any (fun i => (s.data.drop i).take sub.length = sub.data)

/-- MCPCommunicationClient.requestCapability (src/isolation.md lines 344 to 370):
a reply is parsed and returned; an error of code 503 or whose message includes
the lowercase word timeout becomes a soft error object; every other error is
rethrown. -/
def requestCapability (capability : String) (outcome : NatsOutcome) : CapOutcome :=
  match outcome with
  | .reply p => .content p
  | .err code msg =>
    if code = "503" || strIncludes msg "timeout" then
      .unavailable ("No agent available with capability: " ++ capability)
    else .raised code msg

/-! ## Concrete fixtures used by witnesses and counterexamples -/

/-- A registered agent that is online with lastSeen 0. -/
def exAgentA : Agent :=
  { id := "a", name := "agent-a", lastSeen := 0, status := "online", capabilities := [] }

/-- A registered agent that is offline with lastSeen 0. -/
def exAgentOffline : Agent :=
  { id := "a", name := "agent-a", lastSeen := 0, status := "offline", capabilities := [] }

/-- A second registered agent, used for frame conditions. -/
def exAgentB : Agent :=
  { id := "b", name := "agent-b", lastSeen := 0, status := "online", capabilities := [] }

/-- A registry holding the single online agent a. -/
def exRegistry : Registry := [("a", exAgentA)]

/-- A registry holding agents a and b. -/
def exRegistry2 : Registry := [("a", exAgentA), ("b", exAgentB)]

/-- A registry holding the single offline agent a. -/
def exRegistryOffline : Registry := [("a", exAgentOffline)]

/-- A well formed task message: id t1, type echo, data hi. -/
def exTask : JSVal := .obj [("id", .str "t1"), ("type", .str "echo"), ("data", .str "hi")]

/-- A malformed task message: the id field is missing. -/
def exInvalidTask : JSVal := .obj [("type", .str "echo"), ("data", .str "hi")]

/-- A task message whose id is the empty string. -/
def exEmptyIdTask : JSVal := .obj [("id", .str ""), ("type", .str "echo"), ("data", .str "hi")]

/-- The validation predicate as the spec words it: a non-empty id, a non-empty
type, and a payload. -/
def specValidTask (o : JSVal) : Bool :=
  (match jsGetField o "id" with | .str s => s != "" | _ => false) &&
  (match jsGetField o "type" with | .str s => s != "" | _ => false) &&
  !(jsIsUndef (jsGetField o "data"))

/-! ## Claims -/

/-- Claim C9: the reconnect backoff delay is the pure function
delay(attempt) = min(base * 2 ^ attempt, cap), with defaults base 1000 and
cap 30000: it equals the spec formula, never exceeds the cap, and doubles with
the attempt number as long as the doubled value stays at or under the cap. -/
theorem C9_backoff_delay :
    ∀ attempt base cap : Nat,
      calculateBackoffDelay attempt base cap = backoffDelaySpec attempt base cap
      ∧ calculateBackoffDelay attempt base cap ≤ cap
      ∧ (2 * (base * 2 ^ attempt) ≤ cap →
          calculateBackoffDelay (attempt + 1) base cap =
            2 * calculateBackoffDelay attempt base cap)
      ∧ calculateBackoffDelay attempt defaultBaseDelay defaultMaxDelay =
          min (1000 * 2 ^ attempt) 30000 := by
  intro attempt base cap
  refine ⟨rfl, min_le_right _ _, ?_, rfl⟩
  intro h
  have hx : base * 2 ^ attempt ≤ cap := by omega
  have h2 : base * 2 ^ (attempt + 1) = 2 * (base * 2 ^ attempt) := by ring
  simp [calculateBackoffDelay, h2, Nat.min_eq_left h, Nat.min_eq_left hx]

/-- Witness for claim C9: at attempt 2 with the default base and cap the delay
is 4000 and doubles to 8000 at attempt 3. -/
theorem C9_backoff_delay_witness :
    calculateBackoffDelay 3 1000 30000 = 2 * calculateBackoffDelay 2 1000 30000 :=
  (C9_backoff_delay 2 1000 30000).2.2.1 (by decide)

/-- Helper: typeof of a modelled value is string exactly for string values. -/
theorem jsTypeof_eq_string_iff (v : JSVal) : jsTypeof v = "string" ↔ ∃ s, v = .str s := by
  cases v <;> simp [jsTypeof]

/-- Counterexample for claim C8: isValidTask accepts a task whose id is the
empty string, while the claim classifies every message without a non-empty id
as invalid; the spec-worded predicate rejects it. -/
theorem C8_cex :
    isValidTask exEmptyIdTask = true ∧ specValidTask exEmptyIdTask = false := by
  constructor <;> rfl

/-- Claim C8 as amended: the validation predicate accepts a task message if and
only if it is a truthy value of typeof object whose id and type fields are
strings (possibly empty) and whose data field is not undefined; emptiness of id
and type is not checked. -/
theorem C8_amended :
    ∀ o : JSVal,
      isValidTask o = true ↔
        (jsTruthy o = true ∧ jsTypeof o = "object" ∧
         (∃ s, jsGetField o "id" = .str s) ∧
         (∃ t, jsGetField o "type" = .str t) ∧
         jsIsUndef (jsGetField o "data") = false) := by
  intro o
  simp only [isValidTask, Bool.and_eq_true, Bool.not_eq_true', beq_iff_eq,
    ← jsTypeof_eq_string_iff]
  tauto

/-- Witness for claim C8 as amended: the well formed fixture task is accepted. -/
theorem C8_amended_witness : isValidTask exTask = true :=
  (C8_amended exTask).mpr ⟨rfl, rfl, ⟨"t1", rfl⟩, ⟨"echo", rfl⟩, rfl⟩

/-- Claim C6: processing a task message returns exactly one TaskResult, its
status is completed or failed and nothing else, the loop publishes exactly that
one result, and a handler error is captured as a failed TaskResult carrying an
error string instead of escaping. -/
theorem C6_processTask_one_result :
    ∀ (agentId : String) (claudeAvailable : Bool) (parseResult : Except String JSVal)
      (claudeOutcome : Except String String) (writeOutcome : Except String Unit)
      (nowIso : String) (elapsedMs : Nat) (stats : ProcessingStats),
      ((processTask agentId claudeAvailable parseResult claudeOutcome writeOutcome
          nowIso elapsedMs stats).1.status = "completed" ∨
       (processTask agentId claudeAvailable parseResult claudeOutcome writeOutcome
          nowIso elapsedMs stats).1.status = "failed")
      ∧ (taskLoopStep agentId claudeAvailable parseResult claudeOutcome writeOutcome
          nowIso elapsedMs stats).1.length = 1
      ∧ ((processTask agentId claudeAvailable parseResult claudeOutcome writeOutcome
          nowIso elapsedMs stats).1.status = "failed" →
         ∃ emsg, (processTask agentId claudeAvailable parseResult claudeOutcome writeOutcome
          nowIso elapsedMs stats).1.error = some emsg) := by
  intro agentId claudeAvailable parseResult claudeOutcome writeOutcome nowIso elapsedMs stats
  cases parseResult with
  | error e => exact ⟨Or.inr rfl, rfl, fun _ => ⟨e, rfl⟩⟩
  | ok d =>
    by_cases hv : isValidTask d
    · cases writeOutcome with
      | error e =>
        refine ⟨Or.inr ?_, rfl, fun _ => ⟨e, ?_⟩⟩ <;> simp [processTask, hv]
      | ok u =>
        refine ⟨Or.inl ?_, rfl, fun hc => ?_⟩
        · simp [processTask, hv]
        · simp [processTask, hv] at hc
    · have hv' : isValidTask d = false := by simpa using hv
      refine ⟨Or.inr ?_, rfl, fun _ => ⟨"Invalid task structure", ?_⟩⟩ <;>
        simp [processTask, hv']

/-- Witness for claim C6: a parse failure is converted into a single published
TaskResult with status failed and an error string. -/
theorem C6_processTask_one_result_witness :
    ∃ emsg, (processTask "agent-1" false (Except.error "bad json") (Except.ok "")
      (Except.ok ()) "ts" 2 initialStats).1.error = some emsg :=
  (C6_processTask_one_result "agent-1" false (Except.error "bad json") (Except.ok "")
    (Except.ok ()) "ts" 2 initialStats).2.2 rfl

/-- Counterexample for claim C7: a well formed task with id t1 whose result file
write fails yields a failed TaskResult whose taskId is the literal unknown, not
t1, so the failed outcome does not carry the id of the task. -/
theorem C7_cex :
    (processTask "agent-1" false (Except.ok exTask) (Except.ok "")
        (Except.error "EACCES: write failed") "ts" 5 initialStats).1.taskId = "unknown"
    ∧ jsGetField exTask "id" = JSVal.str "t1"
    ∧ (processTask "agent-1" false (Except.ok exTask) (Except.ok "")
        (Except.error "EACCES: write failed") "ts" 5 initialStats).1.status = "failed" :=
  ⟨rfl, rfl, rfl⟩

/-- Claim C7 as amended: a completed TaskResult carries taskId equal to the id
of the processed task, while a failed TaskResult carries the fixed taskId
unknown; correlation by taskId therefore works only for completed results. -/
theorem C7_amended :
    ∀ (agentId : String) (claudeAvailable : Bool) (claudeOutcome : Except String String)
      (writeOutcome : Except String Unit) (nowIso : String) (elapsedMs : Nat)
      (stats : ProcessingStats) (d : JSVal) (i : String),
      isValidTask d = true → jsGetField d "id" = .str i →
      ((processTask agentId claudeAvailable (.ok d) claudeOutcome writeOutcome
          nowIso elapsedMs stats).1.status = "completed" →
        (processTask agentId claudeAvailable (.ok d) claudeOutcome writeOutcome
          nowIso elapsedMs stats).1.taskId = i)
      ∧ ((processTask agentId claudeAvailable (.ok d) claudeOutcome writeOutcome
          nowIso elapsedMs stats).1.status = "failed" →
        (processTask agentId claudeAvailable (.ok d) claudeOutcome writeOutcome
          nowIso elapsedMs stats).1.taskId = "unknown") := by
  intro agentId claudeAvailable claudeOutcome writeOutcome nowIso elapsedMs stats d i hv hid
  cases writeOutcome with
  | error e =>
    refine ⟨fun hc => ?_, fun _ => ?_⟩
    · simp [processTask, hv] at hc
    · simp [processTask, hv]
  | ok u =>
    refine ⟨fun _ => ?_, fun hc => ?_⟩
    · simp [processTask, hv, hid, jsStr]
    · simp [processTask, hv] at hc

/-- Witness for claim C7 as amended: the completed result for the fixture task
with id t1 carries taskId t1. -/
theorem C7_amended_witness :
    (processTask "agent-1" false (Except.ok exTask) (Except.ok "") (Except.ok ())
      "ts" 5 initialStats).1.taskId = "t1" :=
  (C7_amended "agent-1" false (Except.ok "") (Except.ok ()) "ts" 5 initialStats
    exTask "t1" rfl rfl).1 rfl

/-- Counterexample for claim C3: for a malformed task message (missing id) the
task loop does publish a TaskResult to the results topic, with status failed and
taskId unknown, contradicting that no result of any status is published. -/
theorem C3_cex :
    (taskLoopStep "agent-1" false (Except.ok exInvalidTask) (Except.ok "")
        (Except.ok ()) "ts" 3 initialStats).1 =
      [{ agentId := "agent-1", taskId := "unknown", status := "failed", timestamp := "ts",
         result := "Task processing failed", error := some "Invalid task structure",
         processingTime := 3 }] :=
  rfl

/-- Claim C3 as amended: a malformed task message is logged and not retried (the
loop consumes it exactly once), but it is not silently dropped: the agent
publishes exactly one TaskResult with status failed, error string
Invalid task structure and taskId unknown to the results topic. -/
theorem C3_amended :
    ∀ (agentId : String) (claudeAvailable : Bool) (claudeOutcome : Except String String)
      (writeOutcome : Except String Unit) (nowIso : String) (elapsedMs : Nat)
      (stats : ProcessingStats) (d : JSVal),
      isValidTask d = false →
      (taskLoopStep agentId claudeAvailable (.ok d) claudeOutcome writeOutcome
          nowIso elapsedMs stats).1 =
        [{ agentId := agentId, taskId := "unknown", status := "failed", timestamp := nowIso,
           result := "Task processing failed", error := some "Invalid task structure",
           processingTime := elapsedMs }] := by
  intro agentId claudeAvailable claudeOutcome writeOutcome nowIso elapsedMs stats d hv
  simp [taskLoopStep, processTask, hv]

/-- Witness for claim C3 as amended: the fixture message without an id yields
exactly the single failed result. -/
theorem C3_amended_witness :
    (taskLoopStep "agent-2" true (Except.ok exInvalidTask) (Except.ok "")
        (Except.error "never reached") "now" 4 initialStats).1 =
      [{ agentId := "agent-2", taskId := "unknown", status := "failed", timestamp := "now",
         result := "Task processing failed", error := some "Invalid task structure",
         processingTime := 4 }] :=
  C3_amended "agent-2" true (Except.ok "") (Except.error "never reached") "now" 4
    initialStats exInvalidTask rfl

/-- Counterexample for claim C1: a heartbeat/status message received for the id
a while the registry is empty creates no record: the registry is left unchanged
and directory lookup still returns null, contradicting that the record is
created if absent. -/
theorem C1_cex :
    registryStep 5 (.statusMessage "a" "online") [] = []
    ∧ handleGetAgentInfo "a" (registryStep 5 (.statusMessage "a" "online") []) = none :=
  ⟨rfl, rfl⟩

/-- Claim C1 as amended: every announce upserts the record (creating it if
absent), refreshing lastSeen and setting status online; a heartbeat/status
message carrying online refreshes lastSeen and flips status to online only for
an id that is already registered (so a heartbeat after the agent was marked
offline flips it back to online), while a heartbeat for an unknown id is
ignored and creates no record. -/
theorem C1_amended :
    (∀ (now : Nat) (st : Registry) (d : AnnounceData),
      ∃ a, handleGetAgentInfo d.id (registryStep now (.announce d) st) = some a
        ∧ a.status = "online" ∧ a.lastSeen = now)
    ∧ (∀ (now : Nat) (st : Registry) (agentId : String) (a : Agent),
        handleGetAgentInfo agentId st = some a →
        handleGetAgentInfo agentId (registryStep now (.statusMessage agentId "online") st) =
          some { a with status := "online", lastSeen := now })
    ∧ (∀ (now : Nat) (st : Registry) (agentId : String),
        handleGetAgentInfo agentId st = none →
        registryStep now (.statusMessage agentId "online") st = st) := by
  refine ⟨?_, ?_, ?_⟩
  · intro now st d
    exact ⟨_, jsMapGet_jsMapSet_self st d.id _, rfl, rfl⟩
  · intro now st agentId a h
    have h' : jsMapGet st agentId = some a := h
    simp only [handleGetAgentInfo, registryStep, updateAgentStatus, h']
    exact jsMapGet_jsMapSet_self st agentId _
  · intro now st agentId h
    have h' : jsMapGet st agentId = none := h
    simp only [registryStep, updateAgentStatus, h']

/-- Witness for claim C1 as amended: a heartbeat for the offline agent a flips
its record back to online and refreshes lastSeen. -/
theorem C1_amended_witness :
    handleGetAgentInfo "a" (registryStep 5 (.statusMessage "a" "online") exRegistryOffline) =
      some { id := "a", name := "agent-a", lastSeen := 5, status := "online",
             capabilities := [] } :=
  C1_amended.2.1 5 exRegistryOffline "a" exAgentOffline rfl

/-- Claim C10: a status update for an id that is not in the registry leaves the
registry completely unchanged, and a status update for a known id rewrites only
the status and lastSeen fields of that record, leaving every other field of the
record and every other record untouched. -/
theorem C10_updateAgentStatus_frame :
    (∀ (now : Nat) (agentId status : String) (st : Registry),
      jsMapGet st agentId = none → updateAgentStatus now agentId status st = st)
    ∧ (∀ (now : Nat) (agentId status : String) (st : Registry) (a : Agent),
        jsMapGet st agentId = some a →
        jsMapGet (updateAgentStatus now agentId status st) agentId =
          some { a with status := status, lastSeen := now }
        ∧ (∀ otherId, otherId ≠ agentId →
            jsMapGet (updateAgentStatus now agentId status st) otherId =
              jsMapGet st otherId)) := by
  constructor
  · intro now agentId status st h
    simp only [updateAgentStatus, h]
  · intro now agentId status st a h
    constructor
    · simp only [updateAgentStatus, h]
      exact jsMapGet_jsMapSet_self st agentId _
    · intro otherId hne
      simp only [updateAgentStatus, h]
      exact jsMapGet_jsMapSet_ne st agentId otherId _ hne

/-- Witness for claim C10: updating the unknown id zzz changes nothing; updating
agent a leaves agent b untouched and rewrites exactly status and lastSeen of a. -/
theorem C10_updateAgentStatus_frame_witness :
    updateAgentStatus 7 "zzz" "offline" exRegistry2 = exRegistry2
    ∧ jsMapGet (updateAgentStatus 7 "a" "offline" exRegistry2) "b" =
        jsMapGet exRegistry2 "b"
    ∧ jsMapGet (updateAgentStatus 7 "a" "offline" exRegistry2) "a" =
        some { id := "a", name := "agent-a", lastSeen := 7, status := "offline",
               capabilities := [] } :=
  ⟨C10_updateAgentStatus_frame.1 7 "zzz" "offline" exRegistry2 rfl,
   (C10_updateAgentStatus_frame.2 7 "a" "offline" exRegistry2 exAgentA rfl).2 "b" (by decide),
   (C10_updateAgentStatus_frame.2 7 "a" "offline" exRegistry2 exAgentA rfl).1⟩

/-- Claim C5: announcing an id that is already in the roster updates the record
in place: the length of list all is unchanged, the key sequence of the roster is
unchanged, and distinctness of roster keys is preserved, so no duplicate entry
is ever created for the same id. -/
theorem C5_announce_idempotent :
    ∀ (now : Nat) (d : AnnounceData) (st : Registry),
      jsMapGet st d.id ≠ none →
      (handleListAgents "all" (registerAgent now d st)).length =
        (handleListAgents "all" st).length
      ∧ (registerAgent now d st).map Prod.fst = st.map Prod.fst
      ∧ ((st.map Prod.fst).Nodup → ((registerAgent now d st).map Prod.fst).Nodup) := by
  intro now d st h
  refine ⟨?_, ?_, fun hn => nodup_keys_jsMapSet _ _ _ hn⟩
  · simp only [handleListAgents, registerAgent]
    simp
    exact length_jsMapSet_of_mem st d.id _ h
  · exact keys_jsMapSet_of_mem st d.id _ h

/-- Witness for claim C5: re-announcing the known id a with new data leaves the
roster size reported by list all unchanged. -/
theorem C5_announce_idempotent_witness :
    (handleListAgents "all" (registerAgent 9
        { id := "a", name := some "agent-a-v2", capabilities := some ["x"] }
        exRegistry)).length =
      (handleListAgents "all" exRegistry).length :=
  (C5_announce_idempotent 9
    { id := "a", name := some "agent-a-v2", capabilities := some ["x"] }
    exRegistry (by decide)).1

/-- Counterexample for claim C4: a status message carrying offline, as published
by the client close, marks a fresh (non stale) online agent offline without any
staleness sweep, so the sweep is not the only operation that sets offline. -/
theorem C4_cex :
    handleGetAgentInfo "a" (registryStep 9 (.statusMessage "a" "offline") exRegistry) =
      some { id := "a", name := "agent-a", lastSeen := 9, status := "offline",
             capabilities := [] } :=
  rfl

/-- Claim C4 as amended: an agent record can change status to offline only
through the staleness sweep or through a received status message carrying
offline for that very id (such as the one a client publishes on close);
announces and online heartbeats never set offline, and the list and get queries
never change the registry. -/
theorem C4_amended :
    (∀ (now : Nat) (e : RegistryEvent) (st : Registry) (id : String) (a a' : Agent),
      jsMapGet st id = some a → a.status ≠ "offline" →
      jsMapGet (registryStep now e st) id = some a' → a'.status = "offline" →
      e = .sweep ∨ e = .statusMessage id "offline")
    ∧ (∀ (now : Nat) (st : Registry) (f : String), registryStep now (.listQuery f) st = st)
    ∧ (∀ (now : Nat) (st : Registry) (i : String), registryStep now (.getQuery i) st = st) := by
  refine ⟨?_, fun _ _ _ => rfl, fun _ _ _ => rfl⟩
  intro now e st id a a' hget hstat hget' hoff
  cases e with
  | announce d =>
    exfalso
    by_cases hid : id = d.id
    · subst hid
      simp only [registryStep, registerAgent] at hget'
      rw [jsMapGet_jsMapSet_self] at hget'
      injection hget' with h'
      rw [← h'] at hoff
      have hcontra : ("online" : String) = "offline" := hoff
      exact absurd hcontra (by decide)
    · have h1 : jsMapGet (registryStep now (.announce d) st) id = jsMapGet st id := by
        simp only [registryStep, registerAgent]
        exact jsMapGet_jsMapSet_ne st d.id id _ hid
      rw [h1, hget] at hget'
      injection hget' with h'
      subst h'
      exact hstat hoff
  | statusMessage i s =>
    rcases h2 : jsMapGet st i with _ | b
    · have h1 : registryStep now (.statusMessage i s) st = st := by
        simp only [registryStep, updateAgentStatus, h2]
      rw [h1, hget] at hget'
      injection hget' with h'
      subst h'
      exact absurd hoff hstat
    · by_cases hid : i = id
      · subst hid
        rw [h2] at hget
        injection hget with hba
        subst hba
        have h1 : jsMapGet (registryStep now (.statusMessage i s) st) i =
            some { b with status := s, lastSeen := now } := by
          simp only [registryStep, updateAgentStatus, h2]
          exact jsMapGet_jsMapSet_self st i _
        rw [h1] at hget'
        injection hget' with h'
        rw [← h'] at hoff
        have hs : s = "offline" := hoff
        right
        rw [hs]
      · have h1 : jsMapGet (registryStep now (.statusMessage i s) st) id = jsMapGet st id := by
          simp only [registryStep, updateAgentStatus, h2]
          exact jsMapGet_jsMapSet_ne st i id _ (fun e => hid e.symm)
        rw [h1, hget] at hget'
        injection hget' with h'
        subst h'
        exact absurd hoff hstat
  | sweep => exact Or.inl rfl
  | listQuery f =>
    have h1 : registryStep now (.listQuery f) st = st := rfl
    rw [h1, hget] at hget'
    injection hget' with h'
    subst h'
    exact absurd hoff hstat
  | getQuery i =>
    have h1 : registryStep now (.getQuery i) st = st := rfl
    rw [h1, hget] at hget'
    injection hget' with h'
    subst h'
    exact absurd hoff hstat

/-- Witness for claim C4 as amended: the offline transition of the concrete
counterexample state is traced to the status message event. -/
theorem C4_amended_witness :
    RegistryEvent.statusMessage "a" "offline" = RegistryEvent.sweep ∨
    RegistryEvent.statusMessage "a" "offline" = RegistryEvent.statusMessage "a" "offline" :=
  C4_amended.1 9 (.statusMessage "a" "offline") exRegistry "a" exAgentA
    { id := "a", name := "agent-a", lastSeen := 9, status := "offline", capabilities := [] }
    rfl (by decide) rfl rfl

/-- Counterexample for claim C2: when the bus request fails with its TimeoutError
(no reply within timeoutMs while responders exist), the request_capability
handler rethrows the error instead of returning the soft unavailable result, so
an exception does reach the caller on the timeout path. -/
theorem C2_cex :
    handleRequestCapability "summarize" timeoutError =
      CapOutcome.raised "TIMEOUT" "TIMEOUT" :=
  rfl

/-- Claim C2 as amended: a capability request failing with the no-responders
error of code 503 yields the soft unavailable result from the server handler;
any error whose code is not 503 (such as the TimeoutError of the bus) is
rethrown by the server handler; the agent side client additionally softens
errors of code 503 or whose message includes the word timeout. -/
theorem C2_amended :
    (∀ capability : String,
      handleRequestCapability capability noRespondersError =
        .unavailable ("No agent available with capability: " ++ capability))
    ∧ (∀ capability code msg : String, code ≠ "503" →
        handleRequestCapability capability (.err code msg) = .raised code msg)
    ∧ (∀ capability code msg : String, code = "503" ∨ strIncludes msg "timeout" = true →
        requestCapability capability (.err code msg) =
          .unavailable ("No agent available with capability: " ++ capability)) := by
  refine ⟨fun capability => rfl, ?_, ?_⟩
  · intro capability code msg h
    simp [handleRequestCapability, h]
  · intro capability code msg h
    rcases h with h | h
    · simp [requestCapability, h]
    · simp [requestCapability, h]

/-- Witness for claim C2 as amended: a no-responders failure is softened by the
server, the TimeoutError is rethrown by the server, and an error message
including the word timeout is softened by the agent client. -/
theorem C2_amended_witness :
    handleRequestCapability "summarize" noRespondersError =
      CapOutcome.unavailable "No agent available with capability: summarize"
    ∧ handleRequestCapability "summarize" (.err "TIMEOUT" "TIMEOUT") =
        CapOutcome.raised "TIMEOUT" "TIMEOUT"
    ∧ requestCapability "summarize" (.err "X" "request timeout after 30000ms") =
        CapOutcome.unavailable "No agent available with capability: summarize" :=
  ⟨C2_amended.1 "summarize",
   C2_amended.2.1 "summarize" "TIMEOUT" "TIMEOUT" (by decide),
   C2_amended.2.2 "summarize" "X" "request timeout after 30000ms" (Or.inr (by decide))⟩
